import Mathlib

/-!
Verification of the Kochi Metro Rail repository (`app.py`): a user-account
service (signup / login / session, SQLite users table, one-time legacy JSON
import) and a document manager (upload / download / delete).

The Python handlers are embedded shallowly: the SQLite `users` table becomes a
`List UserRow` in rowid order, sessions become an `Option String` holding the
username, and each handler becomes a pure function from store and request to a
response and the updated store.
-/

namespace KochiMetro

/-- A row of the `users` table (`created_at` is irrelevant to the properties
studied here and omitted).  The `password` column holds whatever string the
code stores there. -/
structure UserRow where
  username : String
  password : String
  full_name : String
  email : Option String
  role : String
deriving Repr, DecidableEq

/-- The `users` table in rowid (insertion) order; `fetchone` on an unordered
`SELECT` returns the first matching row in this order. -/
abbrev Store := List UserRow

/-- Split a character list at every separator satisfying `p`, keeping empty
pieces — the semantics of Python's `str.split(sep)`. -/
def splitPred (p : Char → Bool) : List Char → List (List Char)
  | [] => [[]]
  | c :: cs =>
    let rest := splitPred p cs
    if p c then [] :: rest
    else
      match rest with
      | r :: rs => (c :: r) :: rs
      | [] => [[c]]

/-- Python `str.split(sep)` for a single-character separator. -/
def splitChar (sep : Char) (cs : List Char) : List (List Char) :=
  splitPred (fun c => c == sep) cs

/-- Python `str.strip()`: drop whitespace from both ends. -/
def pyStrip (s : String) : String :=
  ⟨((s.data.dropWhile Char.isWhitespace).reverse.dropWhile Char.isWhitespace).reverse⟩

/-- Python `str.lower()` (ASCII range, which is all the code relies on). -/
def pyLower (s : String) : String := ⟨s.data.map Char.toLower⟩

/-- Modelled from the spec: the repository hashes passwords with werkzeug's
`generate_password_hash`, whose source is not part of this repository; the
spec says the stored password is a "salted one-way hash (never the
plaintext)".  werkzeug emits `method$salt$digest`; the digest here is a toy
rolling hash, standing in for scrypt, which the code never inspects beyond
recomputing it in `check_password_hash`. -/
def pwdigest (salt password : String) : String :=
  toString ((salt ++ password).data.foldl (fun a c => (a * 31 + c.toNat) % 1000003) 7)

/-- Modelled from the spec: werkzeug `generate_password_hash` with the default
method tag; output format `method$salt$digest`. -/
def generate_password_hash (salt : String) (password : String) : String :=
  "scrypt:32768:8:1$" ++ salt ++ "$" ++ pwdigest salt password

/-- Modelled from the spec: werkzeug `check_password_hash` splits the stored
string on `$` into method, salt and digest and recomputes the digest for the
candidate password. -/
def check_password_hash (stored candidate : String) : Bool :=
  match splitChar '$' stored.data with
  | [method, salt, dg] =>
    String.mk method == "scrypt:32768:8:1" && String.mk dg == pwdigest (String.mk salt) candidate
  | _ => false

/-- `get_user_by_username`: `SELECT ... WHERE username = ?` (exact match). -/
def get_user_by_username (st : Store) (username : String) : Option UserRow :=
  st.find? (fun r => r.username == username)

/-- `get_user_by_email`: `SELECT ... WHERE lower(email) = ?` with the argument
already lower-cased; a NULL email never matches (SQL `lower(NULL) = x` is not
true). -/
def get_user_by_email (st : Store) (email : String) : Option UserRow :=
  st.find? (fun r => r.email.map pyLower == some (pyLower email))

/-- The `UNIQUE` constraints of the `users` table: `username` unique (exact),
`email` unique when non-NULL (exact, SQLite `UNIQUE` is case-sensitive);
multiple NULL emails are allowed. -/
def db_violates (st : Store) (username : String) (email : Option String) : Bool :=
  st.any (fun r => r.username == username) ||
    match email with
    | none => false
    | some e => st.any (fun r => r.email == some e)

/-- A raw `INSERT INTO users ...`: raises `IntegrityError` (the `.error`
branch) when a uniqueness constraint is violated, else appends the row. -/
def db_insert (st : Store) (r : UserRow) : Except Unit Store :=
  if db_violates st r.username r.email then .error () else .ok (st ++ [r])

/-- `create_user`: inserts the already-hashed credentials row. -/
def create_user (st : Store) (username password_hash full_name : String)
    (email : Option String) (role : String) : Except Unit Store :=
  db_insert st ⟨username, password_hash, full_name, email, role⟩

/-- `lookup_user`: empty identifier finds nothing; otherwise exact username
match first, then case-insensitive email match; returns the matched row's
stored username together with the row. -/
def lookup_user (st : Store) (login_identifier : String) :
    Option (String × UserRow) :=
  if login_identifier = "" then none
  else
    match st.find? (fun r => r.username == login_identifier) with
    | some r => some (r.username, r)
    | none =>
      match st.find? (fun r => r.email.map pyLower == some (pyLower login_identifier)) with
      | some r => some (r.username, r)
      | none => none

/-- One entry of the mapping produced by `load_users_from_json`: that loader
already defaults `password` to `""`, `full_name` to the username, `role` to
`"Viewer"`, and leaves `email` possibly absent. -/
structure LegacyEntry where
  password : String
  full_name : String
  email : Option String
  role : String
deriving Repr, DecidableEq

/-- The row `migrate_users_from_json` builds for a legacy entry: the password
field is inserted verbatim, `full_name` falls back to the username via `or`,
`role` falls back to `"Viewer"` via `or`. -/
def rowOfLegacy (e : String × LegacyEntry) : UserRow :=
  ⟨e.1, e.2.password,
   if e.2.full_name = "" then e.1 else e.2.full_name,
   e.2.email,
   if e.2.role = "" then "Viewer" else e.2.role⟩

/-- One iteration of the migration loop: `try: INSERT ... except
IntegrityError: continue`. -/
def try_insert (st : Store) (e : String × LegacyEntry) : Store :=
  match db_insert st (rowOfLegacy e) with
  | .ok st2 => st2
  | .error _ => st

/-- `migrate_users_from_json`: returns unchanged if the JSON mapping is empty
or the table already has rows; otherwise best-effort inserts every entry. -/
def migrate_users_from_json (json_users : List (String × LegacyEntry)) (st : Store) : Store :=
  if json_users.isEmpty then st
  else if st.length ≠ 0 then st
  else json_users.foldl try_insert st

/-- Follows the spec's words for `importLegacy`: "if the table already has ≥1
row, this is a no-op; otherwise inserts every entry, silently skipping
entries that violate uniqueness". -/
def importLegacy_spec (json_users : List (String × LegacyEntry)) (st : Store) : Store :=
  if 1 ≤ st.length then st
  else json_users.foldl try_insert st

/-- The JSON session payload built by `get_session_payload`. -/
inductive SessionPayload where
  | unauthenticated
  | authenticated (username display_name role : String) (email : Option String)
deriving Repr, DecidableEq

/-- The server-side session: `session.get("user")`.  `none` models an absent
key; the code treats an empty-string username as falsy too. -/
abbrev Session := Option String

/-- `get_session_payload`: no (or falsy) session username gives
`{authenticated: false}`; a username with no matching row pops the session and
gives `{authenticated: false}`; otherwise the payload is rebuilt from the
fetched row (`full_name or username`, `role`, `email`).  Returns the payload
and the session after the call. -/
def get_session_payload (st : Store) (sess : Session) : SessionPayload × Session :=
  let username := sess.getD ""
  if username = "" then (.unauthenticated, sess)
  else
    match get_user_by_username st username with
    | none => (.unauthenticated, none)
    | some user =>
      (.authenticated username
        (if user.full_name = "" then username else user.full_name)
        user.role user.email, sess)

/-- The JSON body of a signup request; `none` models an absent or null
field. -/
structure SignupPayload where
  username : Option String
  password : Option String
  full_name : Option String
  email : Option String
  role : Option String
deriving Repr, DecidableEq

/-- Python `payload.get(k) or ""`. -/
def orEmpty (o : Option String) : String := o.getD ""

/-- `username = (payload.get("username") or "").strip()`. -/
def norm_username (p : SignupPayload) : String := pyStrip (orEmpty p.username)

/-- `password = payload.get("password") or ""` — note: NOT stripped. -/
def norm_password (p : SignupPayload) : String := orEmpty p.password

/-- `full_name = (payload.get("full_name") or "").strip()`. -/
def norm_full_name (p : SignupPayload) : String := pyStrip (orEmpty p.full_name)

/-- `email = (payload.get("email") or "").strip() or None`. -/
def norm_email (p : SignupPayload) : Option String :=
  let e := pyStrip (orEmpty p.email)
  if e = "" then none else some e

/-- `role = (payload.get("role") or "Viewer").strip() or "Viewer"`. -/
def norm_role (p : SignupPayload) : String :=
  let r0 := orEmpty p.role
  let r1 := pyStrip (if r0 = "" then "Viewer" else r0)
  if r1 = "" then "Viewer" else r1

/-- Outcome of `POST /api/signup`. -/
inductive SignupResult where
  | validationError                        -- 400 "Username, full name and password are required."
  | usernameConflict                       -- 409 "Username already exists."
  | emailConflict                          -- 409 "Email already in use."
  | integrityFailure                       -- 500 "Unable to create account..."
  | created (username full_name : String)  -- 201 success body echo
deriving Repr, DecidableEq

/-- HTTP status code of each signup outcome. -/
def SignupResult.status : SignupResult → Nat
  | .validationError => 400
  | .usernameConflict => 409
  | .emailConflict => 409
  | .integrityFailure => 500
  | .created _ _ => 201

/-- The `signup` handler.  `salt` models the randomness werkzeug draws when
hashing.  Returns the response and the store after the request. -/
def signup (st : Store) (salt : String) (p : SignupPayload) : SignupResult × Store :=
  if norm_username p = "" || norm_password p = "" || norm_full_name p = "" then
    (.validationError, st)
  else if (get_user_by_username st (norm_username p)).isSome then
    (.usernameConflict, st)
  else if (norm_email p).isSome && (get_user_by_email st ((norm_email p).getD "")).isSome then
    (.emailConflict, st)
  else
    match create_user st (norm_username p) (generate_password_hash salt (norm_password p))
        (norm_full_name p) (norm_email p) (norm_role p) with
    | .ok st2 => (.created (norm_username p) (norm_full_name p), st2)
    | .error _ => (.integrityFailure, st)

/-- The JSON body of a login request (`username` carries the identifier). -/
structure LoginPayload where
  username : Option String
  password : Option String
deriving Repr, DecidableEq

/-- Response of `POST /api/login`: an error with HTTP status and `error`
message, or 200 with the session payload. -/
inductive LoginResponse where
  | err (status : Nat) (message : String)
  | ok (payload : SessionPayload)
deriving Repr, DecidableEq

/-- The `login` handler: trims the identifier, requires both fields,
delegates to `lookup_user`, verifies the hash, and on success stores the
canonical username in the session and echoes `get_session_payload`.  Returns
the response and the session after the request. -/
def login (st : Store) (sess : Session) (p : LoginPayload) : LoginResponse × Session :=
  let login_identifier := pyStrip (orEmpty p.username)
  let password := orEmpty p.password
  if login_identifier = "" || password = "" then
    (.err 400 "Both username and password are required.", sess)
  else
    match lookup_user st login_identifier with
    | none => (.err 401 "Invalid username or password.", sess)
    | some (username, user) =>
      if check_password_hash user.password password then
        let sess2 : Session := some username
        (.ok (get_session_payload st sess2).1, sess2)
      else
        (.err 401 "Invalid username or password.", sess)

/-! ## Document manager (second app) -/

/-- A row of the `documents` table (`upload_date` omitted: no claim touches
it). -/
structure Document where
  id : Nat
  filename : String
  department : String
  category : String
deriving Repr, DecidableEq

/-- `ALLOWED_EXTENSIONS = {'pdf', 'doc', 'docx', 'jpg', 'jpeg', 'png'}`. -/
def ALLOWED_EXTENSIONS : List String := ["pdf", "doc", "docx", "jpg", "jpeg", "png"]

/-- `allowed_file`: `'.' in filename and filename.rsplit('.', 1)[1].lower()
in ALLOWED_EXTENSIONS`; `rsplit('.', 1)[1]` is the text after the last dot,
i.e. the last component of splitting on `"."`. -/
def allowed_file (filename : String) : Bool :=
  filename.data.any (fun c => c == '.') &&
    ALLOWED_EXTENSIONS.contains (pyLower (String.mk ((splitChar '.' filename.data).getLastD [])))

/-- Characters werkzeug's sanitizer keeps: ASCII alphanumerics, underscore,
dot, hyphen. -/
def filename_char_ok (c : Char) : Bool :=
  c.isAlpha || c.isDigit || c == '_' || c == '.' || c == '-'

/-- Characters stripped from both ends of the sanitized name. -/
def strip_char (c : Char) : Bool := c == '.' || c == '_'

/-- Modelled from the spec: the repository calls werkzeug's `secure_filename`,
whose source is not part of this repository; the spec says the filename is
"sanitized against path traversal" before storage.  Following werkzeug: path
separators become spaces, whitespace-separated pieces are rejoined with
underscores, characters outside `[A-Za-z0-9_.-]` are dropped, and leading and
trailing dots/underscores are stripped. -/
def secure_filename (filename : String) : String :=
  let replaced := filename.data.map fun c => if c == '/' || c == '\\' then ' ' else c
  let pieces := (splitPred Char.isWhitespace replaced).filter (fun p => p ≠ [])
  let joined := List.intercalate ['_'] pieces
  let kept := joined.filter filename_char_ok
  String.mk (((kept.dropWhile strip_char).reverse.dropWhile strip_char).reverse)

/-- An uploaded file as Flask presents it (`request.files.get("file")`). -/
structure UploadFile where
  filename : String
deriving Repr, DecidableEq

/-- Outcome of `POST /upload`: the two flash-and-redirect validation
failures, or success with the sanitized stored filename. -/
inductive UploadOutcome where
  | noFileError        -- flash "No file selected"
  | invalidTypeError   -- flash "Invalid file type. Allowed: pdf, doc, docx, jpg, png"
  | success (stored : String)
deriving Repr, DecidableEq

/-- Both upload failures are ValidationError-class responses. -/
def UploadOutcome.isValidationError : UploadOutcome → Bool
  | .success _ => false
  | _ => true

/-- The `upload` handler (POST branch): missing file or empty filename fails;
a disallowed extension fails; otherwise the sanitized filename is stored on
disk and a metadata row is inserted.  `nextId` models the autoincrement
column. -/
def upload (docs : List Document) (nextId : Nat) (file : Option UploadFile)
    (department category : String) : UploadOutcome × List Document :=
  match file with
  | none => (.noFileError, docs)
  | some f =>
    if f.filename = "" then (.noFileError, docs)
    else if allowed_file f.filename then
      let fname := secure_filename f.filename
      (.success fname, docs ++ [⟨nextId, fname, department, category⟩])
    else (.invalidTypeError, docs)

/-- The possible outcomes of `os.remove` on the document's file, supplied by
the environment. -/
inductive RemoveResult where
  | ok            -- file removed
  | fileNotFound  -- raises FileNotFoundError (caught by the handler)
  | otherError    -- raises some other OSError (NOT caught)
deriving Repr, DecidableEq

/-- Outcome of `GET /delete/<id>`. -/
inductive DeleteOutcome where
  | notFound       -- get_or_404 aborts with 404
  | success        -- flash "File deleted successfully!" + redirect
  | uncaughtError  -- the file-removal exception propagates (HTTP 500)
deriving Repr, DecidableEq

/-- The `delete` handler: 404 when the id is absent; otherwise removes the
file, swallowing only `FileNotFoundError`; the row is deleted only when
control reaches `db.session.delete`. -/
def delete (docs : List Document) (doc_id : Nat) (fs : RemoveResult) :
    DeleteOutcome × List Document :=
  match docs.find? (fun d => d.id == doc_id) with
  | none => (.notFound, docs)
  | some _ =>
    match fs with
    | .otherError => (.uncaughtError, docs)
    | _ => (.success, docs.filter (fun d => ¬ d.id == doc_id))

/-! ## Claims -/

/-- C7: Legacy import is a no-op (modifies no store state) whenever the users
table already contains at least one row, even if the legacy source has records
absent from the store; when the table is empty it inserts every legacy entry,
silently skipping any entry that violates a uniqueness constraint while still
inserting the rest.  Stated as: the code's `migrate_users_from_json` agrees
with `importLegacy_spec`, the direct transcription of the spec's words. -/
theorem migrate_matches_importLegacy_spec (json_users : List (String × LegacyEntry))
    (st : Store) :
    migrate_users_from_json json_users st = importLegacy_spec json_users st := by
  unfold migrate_users_from_json importLegacy_spec
  cases json_users with
  | nil => cases st <;> simp
  | cons e es => cases st <;> simp

/-- The document table used in the claim-C8 scenarios. -/
def docs_c8 : List Document := [⟨1, "f.pdf", "HR", "Invoice"⟩]

/-- C8 counterexample: the claim says any file-removal failure is swallowed
and the metadata row is always removed, but the handler catches only
`FileNotFoundError`; a different `OSError` (e.g. a permission error)
propagates and the row survives. -/
theorem delete_other_error_counterexample :
    (delete docs_c8 1 .otherError).1 ≠ .success ∧
    (delete docs_c8 1 .otherError).2 = docs_c8 := by
  decide

/-- C8 (amended): for a present id, `delete` removes the metadata row and
succeeds when the file removal succeeds or fails with file-not-found (only
that failure is swallowed); any other file-removal failure propagates and the
row is not removed; an absent id fails NotFound. -/
theorem delete_characterisation (docs : List Document) (doc_id : Nat) (fs : RemoveResult) :
    (docs.find? (fun d => d.id == doc_id) = none → delete docs doc_id fs = (.notFound, docs)) ∧
    ((docs.find? (fun d => d.id == doc_id)).isSome → fs ≠ .otherError →
      delete docs doc_id fs = (.success, docs.filter (fun d => ¬ d.id == doc_id))) ∧
    ((docs.find? (fun d => d.id == doc_id)).isSome → fs = .otherError →
      delete docs doc_id fs = (.uncaughtError, docs)) := by
  unfold delete
  refine ⟨fun h => by simp [h], fun h1 h2 => ?_, fun h1 h2 => ?_⟩
  · obtain ⟨d, hd⟩ := Option.isSome_iff_exists.mp h1
    rw [hd]
    cases fs <;> simp_all
  · obtain ⟨d, hd⟩ := Option.isSome_iff_exists.mp h1
    rw [hd, h2]

/-- Witness for C8 (amended): deleting document 1 while its file is already
gone (`FileNotFoundError`) still succeeds and removes the row. -/
theorem delete_characterisation_witness :
    delete docs_c8 1 .fileNotFound = (.success, docs_c8.filter (fun d => ¬ d.id == 1)) :=
  (delete_characterisation docs_c8 1 .fileNotFound).2.1 (by decide) (by decide)

/-- C2 counterexample: the claim says a password that is empty after trimming
whitespace yields ValidationError, but the handler does not strip the
password; signing up with the one-space password `" "` succeeds and creates a
row. -/
theorem signup_whitespace_password_counterexample :
    pyStrip " " = "" ∧
    (signup [] "s1" ⟨some "u", some " ", some "Full", none, none⟩).1 ≠ .validationError ∧
    (signup [] "s1" ⟨some "u", some " ", some "Full", none, none⟩).2 ≠ [] := by
  decide

/-- C2 (amended): for every signup request in which the username or the full
name is empty after trimming whitespace, or the password is empty without
trimming, signup returns ValidationError (HTTP 400) regardless of the other
fields' validity, and no user row is created. -/
theorem signup_validation (st : Store) (salt : String) (p : SignupPayload)
    (h : norm_username p = "" ∨ norm_password p = "" ∨ norm_full_name p = "") :
    signup st salt p = (.validationError, st) ∧ (signup st salt p).1.status = 400 := by
  have hres : signup st salt p = (.validationError, st) := by
    unfold signup
    rcases h with h | h | h <;> simp [h]
  exact ⟨hres, by rw [hres]; rfl⟩

/-- Witness for C2 (amended): a whitespace-only username is rejected with 400
and the store stays empty, even though password and full name are valid. -/
theorem signup_validation_witness :
    signup [] "s1" ⟨some "  ", some "pw123", some "Full Name", some "a@x.com", none⟩ =
      (.validationError, []) ∧
    (signup [] "s1" ⟨some "  ", some "pw123", some "Full Name", some "a@x.com", none⟩).1.status = 400 :=
  signup_validation [] "s1" ⟨some "  ", some "pw123", some "Full Name", some "a@x.com", none⟩
    (Or.inl (by decide))

/-- C3: for every signup request whose username already exists, or whose
non-empty (normalized) email already exists case-insensitively, signup
returns Conflict (HTTP 409) and inserts no row; the username check needs no
assumption on the email and the email check needs no assumption beyond the
username being free. -/
theorem signup_conflicts (st : Store) (salt : String) (p : SignupPayload)
    (hu : norm_username p ≠ "") (hp : norm_password p ≠ "") (hf : norm_full_name p ≠ "") :
    ((get_user_by_username st (norm_username p)).isSome →
       signup st salt p = (.usernameConflict, st) ∧ (signup st salt p).1.status = 409) ∧
    (∀ e, get_user_by_username st (norm_username p) = none → norm_email p = some e →
       (get_user_by_email st e).isSome →
       signup st salt p = (.emailConflict, st) ∧ (signup st salt p).1.status = 409) := by
  constructor
  · intro hex
    have hres : signup st salt p = (.usernameConflict, st) := by
      unfold signup
      simp [hu, hp, hf, hex]
    exact ⟨hres, by rw [hres]; rfl⟩
  · intro e hnone he hex
    have hres : signup st salt p = (.emailConflict, st) := by
      unfold signup
      simp [hu, hp, hf, hnone, he, hex]
    exact ⟨hres, by rw [hres]; rfl⟩

/-- Witness for C3: against a store holding alice with email `a@x.com`,
reusing the username `alice` with a fresh email gives 409, and the fresh
username `bob` with the email `A@X.COM` (case-insensitively taken) also
gives 409; the store is unchanged both times. -/
theorem signup_conflicts_witness :
    (signup [⟨"alice", "h", "Alice", some "a@x.com", "Viewer"⟩] "s1"
        ⟨some "alice", some "pw", some "Al", some "fresh@x.com", none⟩ =
      (.usernameConflict, [⟨"alice", "h", "Alice", some "a@x.com", "Viewer"⟩])) ∧
    (signup [⟨"alice", "h", "Alice", some "a@x.com", "Viewer"⟩] "s1"
        ⟨some "bob", some "pw", some "Bob", some "A@X.COM", none⟩ =
      (.emailConflict, [⟨"alice", "h", "Alice", some "a@x.com", "Viewer"⟩])) :=
  ⟨((signup_conflicts [⟨"alice", "h", "Alice", some "a@x.com", "Viewer"⟩] "s1"
      ⟨some "alice", some "pw", some "Al", some "fresh@x.com", none⟩
      (by decide) (by decide) (by decide)).1 (by decide)).1,
   ((signup_conflicts [⟨"alice", "h", "Alice", some "a@x.com", "Viewer"⟩] "s1"
      ⟨some "bob", some "pw", some "Bob", some "A@X.COM", none⟩
      (by decide) (by decide) (by decide)).2 "A@X.COM" (by decide) (by decide) (by decide)).1⟩

/-- C4: for a non-empty identifier, `lookup_user` tries an exact username
match first; only if no username matches does it try a case-insensitive email
match; it returns the matched row's stored (canonical) username with the full
row, or nothing; and every returned row matches the identifier exactly by
username or case-insensitively by email (no partial or fuzzy matching). -/
theorem lookup_user_characterisation (st : Store) (id : String) (h : id ≠ "") :
    (∀ r, st.find? (fun r => r.username == id) = some r →
       lookup_user st id = some (r.username, r) ∧ r.username = id) ∧
    (st.find? (fun r => r.username == id) = none →
       lookup_user st id =
         (st.find? (fun r => r.email.map pyLower == some (pyLower id))).map
           (fun r => (r.username, r))) ∧
    (∀ u r, lookup_user st id = some (u, r) →
       u = r.username ∧ r ∈ st ∧
       (r.username = id ∨ r.email.map pyLower = some (pyLower id))) := by
  refine ⟨fun r hr => ?_, fun hnone => ?_, fun u r hur => ?_⟩
  · have hprop : r.username = id := by simpa using List.find?_some hr
    constructor
    · unfold lookup_user
      simp [h, hr]
    · exact hprop
  · unfold lookup_user
    simp only [h, if_neg, hnone]
    cases hmail : st.find? (fun r => r.email.map pyLower == some (pyLower id)) <;> simp [hmail]
  · unfold lookup_user at hur
    rw [if_neg h] at hur
    split at hur
    case _ r1 hname =>
      simp only [Option.some.injEq, Prod.mk.injEq] at hur
      obtain ⟨hu1, hr1⟩ := hur
      subst hr1
      refine ⟨hu1.symm, List.mem_of_find?_eq_some hname, Or.inl ?_⟩
      simpa using List.find?_some hname
    case _ hname =>
      split at hur
      case _ r2 hmail =>
        simp only [Option.some.injEq, Prod.mk.injEq] at hur
        obtain ⟨hu2, hr2⟩ := hur
        subst hr2
        refine ⟨hu2.symm, List.mem_of_find?_eq_some hmail, Or.inr ?_⟩
        simpa using List.find?_some hmail
      case _ => simp at hur

/-- Witness for C4: with a store where bob's email is `alice@x.com`, the
identifier `alice` matches the username `alice` exactly (precedence over any
email matching), and `ALICE@X.COM` falls through to bob's email. -/
theorem lookup_user_characterisation_witness :
    (lookup_user
        [⟨"alice", "h1", "Alice", some "a@x.com", "Viewer"⟩,
         ⟨"bob", "h2", "Bob", some "alice@x.com", "Viewer"⟩] "alice" =
      some ("alice", ⟨"alice", "h1", "Alice", some "a@x.com", "Viewer"⟩)) ∧
    ("alice" : String) = "alice" :=
  (lookup_user_characterisation
    [⟨"alice", "h1", "Alice", some "a@x.com", "Viewer"⟩,
     ⟨"bob", "h2", "Bob", some "alice@x.com", "Viewer"⟩] "alice" (by decide)).1
    ⟨"alice", "h1", "Alice", some "a@x.com", "Viewer"⟩ (by decide)

/-- C5: `get_session_payload` returns unauthenticated when no session exists;
when the session names a missing user it clears the session and returns
unauthenticated; otherwise it returns authenticated with username,
display name (`full_name or username`), role and email taken from the row
fetched from the store on this call, the session left in place. -/
theorem get_session_payload_cases (st : Store) (sess : Session) :
    (sess = none → get_session_payload st sess = (.unauthenticated, none)) ∧
    (∀ u, sess = some u → u ≠ "" → get_user_by_username st u = none →
       get_session_payload st sess = (.unauthenticated, none)) ∧
    (∀ u r, sess = some u → u ≠ "" → get_user_by_username st u = some r →
       get_session_payload st sess =
         (.authenticated u (if r.full_name = "" then u else r.full_name) r.role r.email,
          some u)) := by
  refine ⟨fun h => ?_, fun u hs hu hrow => ?_, fun u r hs hu hrow => ?_⟩
  · subst h; rfl
  · subst hs
    unfold get_session_payload
    simp [hu, hrow]
  · subst hs
    unfold get_session_payload
    simp [hu, hrow]

/-- Witness for C5: a session naming `ghost`, whose row a concurrent deletion
removed, yields unauthenticated and the session is cleared. -/
theorem get_session_payload_cases_witness :
    get_session_payload [⟨"alice", "h1", "Alice", some "a@x.com", "Viewer"⟩] (some "ghost") =
      (.unauthenticated, none) :=
  (get_session_payload_cases [⟨"alice", "h1", "Alice", some "a@x.com", "Viewer"⟩]
    (some "ghost")).2.1 "ghost" rfl (by decide) (by decide)

/-- C6: two failing login requests — one whose identifier resolves to a user
but whose password fails hash verification, one whose identifier matches no
user — produce identical responses (the same 401 status with the same error
message), and neither establishes a session; there is no user-enumeration
signal. -/
theorem login_no_enumeration_signal (st : Store) (sess₁ sess₂ : Session)
    (p₁ p₂ : LoginPayload)
    (h₁ : pyStrip (orEmpty p₁.username) ≠ "") (h₂ : orEmpty p₁.password ≠ "")
    (h₃ : pyStrip (orEmpty p₂.username) ≠ "") (h₄ : orEmpty p₂.password ≠ "")
    (u : String) (r : UserRow)
    (hfound : lookup_user st (pyStrip (orEmpty p₁.username)) = some (u, r))
    (hwrong : check_password_hash r.password (orEmpty p₁.password) = false)
    (hmiss : lookup_user st (pyStrip (orEmpty p₂.username)) = none) :
    (login st sess₁ p₁).1 = (login st sess₂ p₂).1 ∧
    (login st sess₁ p₁).1 = .err 401 "Invalid username or password." ∧
    (login st sess₁ p₁).2 = sess₁ ∧ (login st sess₂ p₂).2 = sess₂ := by
  have e₁ : login st sess₁ p₁ = (.err 401 "Invalid username or password.", sess₁) := by
    unfold login
    simp [h₁, h₂, hfound, hwrong]
  have e₂ : login st sess₂ p₂ = (.err 401 "Invalid username or password.", sess₂) := by
    unfold login
    simp [h₃, h₄, hmiss]
  rw [e₁, e₂]
  exact ⟨rfl, rfl, rfl, rfl⟩

/-- The store used by the claim-C6 witness: alice with the salted hash of
`pw123`. -/
def store_c6 : Store :=
  [⟨"alice", generate_password_hash "s1" "pw123", "Alice", some "a@x.com", "Viewer"⟩]

/-- Witness for C6: `alice` with the wrong password and the unknown
identifier `nobody` receive the exact same response, and no session is
created. -/
theorem login_no_enumeration_signal_witness :
    (login store_c6 none ⟨some "alice", some "wrong"⟩).1 =
      (login store_c6 none ⟨some "nobody", some "pw123"⟩).1 ∧
    (login store_c6 none ⟨some "alice", some "wrong"⟩).1 =
      .err 401 "Invalid username or password." ∧
    (login store_c6 none ⟨some "alice", some "wrong"⟩).2 = none ∧
    (login store_c6 none ⟨some "nobody", some "pw123"⟩).2 = none :=
  login_no_enumeration_signal store_c6 none none
    ⟨some "alice", some "wrong"⟩ ⟨some "nobody", some "pw123"⟩
    (by decide) (by decide) (by decide) (by decide)
    "alice" ⟨"alice", generate_password_hash "s1" "pw123", "Alice", some "a@x.com", "Viewer"⟩
    (by decide) (by decide) (by decide)

/-- C10: at signup, an email that is empty or whitespace-only after trimming
is treated as absent: the duplicate-email check is skipped no matter what
emails the store holds, the signup succeeds (given valid fields and a free
username), and the created row stores no email — so any number of accounts
may simultaneously have no email. -/
theorem signup_blank_email_treated_absent (st : Store) (salt : String) (p : SignupPayload)
    (hmail : pyStrip (orEmpty p.email) = "")
    (hu : norm_username p ≠ "") (hp : norm_password p ≠ "") (hf : norm_full_name p ≠ "")
    (hfree : get_user_by_username st (norm_username p) = none) :
    norm_email p = none ∧
    signup st salt p =
      (.created (norm_username p) (norm_full_name p),
       st ++ [⟨norm_username p, generate_password_hash salt (norm_password p),
              norm_full_name p, none, norm_role p⟩]) := by
  have hemail : norm_email p = none := by
    unfold norm_email
    simp [hmail]
  refine ⟨hemail, ?_⟩
  have hany : st.any (fun r => r.username == norm_username p) = false := by
    rw [List.any_eq_false]
    intro r hr
    have := List.find?_eq_none.mp hfree r hr
    simpa using this
  unfold signup create_user db_insert db_violates
  simp [hu, hp, hf, hfree, hemail, hany]

/-- Witness for C10: with a no-email account `old` already present, a signup
whose email field is the whitespace string `"   "` succeeds and stores a
second row with a null email — two accounts with no email coexist. -/
theorem signup_blank_email_treated_absent_witness :
    norm_email ⟨some "new", some "pw123", some "New User", some "   ", none⟩ = none ∧
    signup [⟨"old", "h0", "Old User", none, "Viewer"⟩] "s1"
        ⟨some "new", some "pw123", some "New User", some "   ", none⟩ =
      (.created "new" "New User",
       [⟨"old", "h0", "Old User", none, "Viewer"⟩,
        ⟨"new", generate_password_hash "s1" "pw123", "New User", none, "Viewer"⟩]) :=
  signup_blank_email_treated_absent [⟨"old", "h0", "Old User", none, "Viewer"⟩] "s1"
    ⟨some "new", some "pw123", some "New User", some "   ", none⟩
    (by decide) (by decide) (by decide) (by decide) (by decide)

/-- Every row produced by the best-effort migration fold is either an
original row or the row built from some legacy entry. -/
theorem mem_foldl_try_insert (json_users : List (String × LegacyEntry)) (st₀ : Store)
    (r : UserRow) (hr : r ∈ json_users.foldl try_insert st₀) :
    r ∈ st₀ ∨ ∃ e ∈ json_users, r = rowOfLegacy e := by
  induction json_users generalizing st₀ with
  | nil => exact Or.inl hr
  | cons e es ih =>
    rw [List.foldl_cons] at hr
    rcases ih (try_insert st₀ e) hr with hin | ⟨e', he', hre⟩
    · have hcases : try_insert st₀ e = st₀ ∨ try_insert st₀ e = st₀ ++ [rowOfLegacy e] := by
        unfold try_insert db_insert
        by_cases hdb : db_violates st₀ (rowOfLegacy e).username (rowOfLegacy e).email = true
        · rw [if_pos hdb]; exact Or.inl rfl
        · rw [if_neg hdb]; exact Or.inr rfl
      rcases hcases with hcase | hcase <;> rw [hcase] at hin
      · exact Or.inl hin
      · rw [List.mem_append] at hin
        rcases hin with hin | hin
        · exact Or.inl hin
        · exact Or.inr ⟨e, List.mem_cons_self e es, by simpa using hin⟩
    · exact Or.inr ⟨e', List.mem_cons_of_mem e he', hre⟩

/-- The legacy JSON mapping of the claim-C1 counterexample: one account whose
password field is the plaintext `pw123`. -/
def legacy_c1 : List (String × LegacyEntry) := [("bob", ⟨"pw123", "Bob B", none, "Viewer"⟩)]

/-- C1 counterexample: legacy import copies the legacy password field into
the store verbatim without hashing — importing an entry whose password field
is the plaintext `pw123` stores exactly `pw123`, which is not
`generate_password_hash salt pw` for any salt and password (every hash output
carries the method/salt prefix and is longer). -/
theorem migrate_stores_plaintext_counterexample :
    (migrate_users_from_json legacy_c1 []).map UserRow.password = ["pw123"] ∧
    ¬ ∃ salt : String, generate_password_hash salt "pw123" = "pw123" := by
  constructor
  · decide
  · rintro ⟨salt, hsalt⟩
    have hlen := congrArg String.length hsalt
    rw [generate_password_hash] at hlen
    simp only [String.length_append] at hlen
    have h17 : ("scrypt:32768:8:1$" : String).length = 17 := by decide
    have h5 : ("pw123" : String).length = 5 := by decide
    rw [h17, h5] at hlen
    omega

/-- C1 (amended): a signup request either leaves the store unchanged or
appends exactly one row whose password field is the salted one-way hash of
the submitted password — signup never stores the plaintext; legacy import,
however, copies each imported entry's password field into the store verbatim,
so an imported row's password is a hash only if the legacy source already
held one. -/
theorem stored_password_provenance (st : Store) (salt : String) (p : SignupPayload) :
    ((signup st salt p).2 = st ∨
     (signup st salt p).2 =
       st ++ [⟨norm_username p, generate_password_hash salt (norm_password p),
              norm_full_name p, norm_email p, norm_role p⟩]) ∧
    ∀ (json_users : List (String × LegacyEntry)) (r : UserRow),
      r ∈ migrate_users_from_json json_users [] →
      ∃ e ∈ json_users, r.password = e.2.password := by
  constructor
  · rcases hs : signup st salt p with ⟨res, st2⟩
    unfold signup create_user db_insert at hs
    split at hs
    · cases hs; exact Or.inl rfl
    · split at hs
      · cases hs; exact Or.inl rfl
      · split at hs
        · cases hs; exact Or.inl rfl
        · split at hs
          case _ st3 heq =>
            split at heq
            · cases heq
            · cases heq
              cases hs
              exact Or.inr rfl
          case _ a heq =>
            cases hs
            exact Or.inl rfl
  · intro json_users r hr
    unfold migrate_users_from_json at hr
    split at hr
    · simp at hr
    · split at hr
      · simp at hr
      · rcases mem_foldl_try_insert json_users [] r hr with hin | ⟨e, he, hre⟩
        · simp at hin
        · exact ⟨e, he, by rw [hre]; rfl⟩

/-- Witness for C1 (amended): the row imported from `legacy_c1` carries the
legacy password field verbatim. -/
theorem stored_password_provenance_witness :
    ∃ e ∈ legacy_c1,
      (⟨"bob", "pw123", "Bob B", none, "Viewer"⟩ : UserRow).password = e.2.password :=
  (stored_password_provenance [] "s1" ⟨none, none, none, none, none⟩).2 legacy_c1
    ⟨"bob", "pw123", "Bob B", none, "Viewer"⟩ (by decide)

/-- Every character surviving the filter-then-strip pipeline of
`secure_filename` passed the character filter. -/
theorem mem_strip_filter {p q : Char → Bool} {l : List Char} {c : Char}
    (hc : c ∈ (((l.filter p).dropWhile q).reverse.dropWhile q).reverse) : p c = true := by
  rw [List.mem_reverse] at hc
  have h2 := (List.dropWhile_sublist _).subset hc
  rw [List.mem_reverse] at h2
  have h3 := (List.dropWhile_sublist _).subset h2
  exact (List.mem_filter.mp h3).2

/-- C9: upload fails ValidationError (and inserts no row) whenever no file is
chosen, the filename is empty, or the extension is not allowed
(case-insensitively); in particular `malware.exe` is rejected and
`report.PDF` accepted; an accepted upload stores the sanitized filename, and
sanitized filenames never contain a path separator. -/
theorem upload_validation_and_sanitisation (docs : List Document) (nextId : Nat)
    (file : Option UploadFile) (department category : String) :
    ((file = none ∨ ∃ f, file = some f ∧ (f.filename = "" ∨ allowed_file f.filename = false)) →
       (upload docs nextId file department category).1.isValidationError = true ∧
       (upload docs nextId file department category).2 = docs) ∧
    allowed_file "malware.exe" = false ∧
    allowed_file "report.PDF" = true ∧
    (∀ f, file = some f → f.filename ≠ "" → allowed_file f.filename = true →
       upload docs nextId file department category =
         (.success (secure_filename f.filename),
          docs ++ [⟨nextId, secure_filename f.filename, department, category⟩])) ∧
    (∀ (s : String) (c : Char), c ∈ (secure_filename s).data → c ≠ '/' ∧ c ≠ '\\') := by
  refine ⟨?_, by decide, by decide, ?_, ?_⟩
  · rintro (rfl | ⟨f, rfl, hf | hf⟩)
    · exact ⟨rfl, rfl⟩
    · simp [upload, hf, UploadOutcome.isValidationError]
    · by_cases hemp : f.filename = ""
      · simp [upload, hemp, UploadOutcome.isValidationError]
      · simp [upload, hemp, hf, UploadOutcome.isValidationError]
  · rintro f rfl hne hall
    simp [upload, hne, hall]
  · intro s c hc
    have hok : filename_char_ok c = true := by
      unfold secure_filename at hc
      exact mem_strip_filter hc
    constructor <;> rintro rfl <;> exact absurd hok (by decide)

/-- Witness for C9: uploading `report.PDF` succeeds (case-insensitive
extension check) and stores the sanitized name, which equals `report.PDF`
itself. -/
theorem upload_validation_and_sanitisation_witness :
    upload [] 1 (some ⟨"report.PDF"⟩) "HR" "Invoice" =
      (.success (secure_filename "report.PDF"),
       [⟨1, secure_filename "report.PDF", "HR", "Invoice"⟩]) ∧
    secure_filename "report.PDF" = "report.PDF" :=
  ⟨(upload_validation_and_sanitisation [] 1 (some ⟨"report.PDF"⟩) "HR" "Invoice").2.2.2.1
      ⟨"report.PDF"⟩ rfl (by decide) (by decide),
   by decide⟩

end KochiMetro
